import Mathlib

/-
Verification of the pangolin SOCKS5 client library.

Shallow embedding of the protocol engine in src/socks/:
  * bytes are `Nat` values (< 256 whenever produced by the code);
  * the control stream is a pair of byte lists (`written` so far, `input`
    remaining to be read);
  * fallible paths return an explicit outcome; an out-of-range slice index
    (a Rust panic) is the distinguished outcome `panicked`;
  * the UDP socket is a trace model: a list of sent (bytes, destination)
    pairs plus a queue of pending inbound (bytes, sender) datagrams.
-/

namespace Pangolin

/-- Error kinds of `Socks5Error` in src/socks/error.rs.  `IoErr` stands for
the `Io` variant (payload dropped: only the kind matters to the claims). -/
inductive Socks5Error
  | IoErr
  | DomainTooLong
  | InvalidResponseVersion (expected actual : Nat)
  | NoAcceptableMethod
  | GeneralSocksServerFailure
  | ConnectionNotAllowed
  | NetworkUnreachable
  | HostUnreachable
  | ConnectionRefused
  | TtlExpired
  | CommandNotSupported
  | AddressTypeNotSupported
  | Unassigned
  | InvalidReservedByte (expected actual : Nat)
  | InvalidAddressType
  | InvalidTargetAddress
  | DatagramSocketNotRegistered
  deriving DecidableEq, Repr

/-- `std::net::SocketAddr`: a v4 or v6 numeric endpoint plus port.
For v6 the octet list has length 16 in every state the code produces. -/
inductive SockAddr
  | v4 (a b c d : Nat) (port : Nat)
  | v6 (octets : List Nat) (port : Nat)
  deriving DecidableEq, Repr

/-- `TargetAddr` in src/socks/mod.rs: `Ip(SocketAddr)` or `Domain(String, u16)`
(the domain is kept as its byte string). -/
inductive TargetAddr
  | Ip (addr : SockAddr)
  | Domain (name : List Nat) (port : Nat)
  deriving DecidableEq, Repr

/-- `RequestType` in src/socks/client.rs. -/
inductive RequestType
  | Connect
  | Bind
  | UdpAssociate
  deriving DecidableEq, Repr

/-- The discriminant values `Connect = 0x01, Bind = 0x02, UdpAssociate = 0x03`. -/
def RequestType.code : RequestType → Nat
  | .Connect => 0x01
  | .Bind => 0x02
  | .UdpAssociate => 0x03

/-- `VERSION` in src/socks/mod.rs. -/
def VERSION : Nat := 0x05

/-- High byte of `WriteBytesExt::write_u16::<NetworkEndian>` (the port is a
`u16`, so `% 256` only matters for out-of-range model inputs). -/
def portHi (p : Nat) : Nat := p / 256 % 256

/-- Low byte of the big-endian `u16` port. -/
def portLo (p : Nat) : Nat := p % 256

/-- The ATYP + address + port block emitted for a `TargetAddr`.  Both
`TryFrom<Request> for Vec<u8>` and `Socks5Client::pack_datagram` push exactly
these bytes after their respective preambles: atyp `0x01` plus the 4 octets
for v4, atyp `0x03` plus a length byte (a `u8`, so `DomainTooLong` past 255)
plus the domain bytes for a domain, atyp `0x04` plus the 16 octets for v6,
then the big-endian port. -/
def encodeAddr : TargetAddr → Except Socks5Error (List Nat)
  | .Ip (.v4 a b c d p) => .ok ([0x01, a, b, c, d] ++ [portHi p, portLo p])
  | .Domain name p =>
      if name.length ≤ 255 then
        .ok ([0x03, name.length] ++ name ++ [portHi p, portLo p])
      else
        .error .DomainTooLong
  | .Ip (.v6 o p) => .ok ([0x04] ++ o ++ [portHi p, portLo p])

/-- `TryFrom<Request> for Vec<u8>` in src/socks/client.rs: the request is
`[VER, CMD, 0x00]` followed by the address block. -/
def requestBytes (cmd : Nat) (t : TargetAddr) : Except Socks5Error (List Nat) :=
  (encodeAddr t).map (fun ab => [VERSION, cmd, 0x00] ++ ab)

/-- `Socks5Client::pack_datagram`: `[0x00, 0x00, 0x00]`, the address block,
then the payload. -/
def pack_datagram (dst : TargetAddr) (data : List Nat) :
    Except Socks5Error (List Nat) :=
  (encodeAddr dst).map (fun ab => [0x00, 0x00, 0x00] ++ ab ++ data)

/-- The `match buf[1]` arm of `Socks5Client::recv_reply`: `none` means the
reply code `0x00` (success, decoding continues); `some e` is the early
return. -/
def repCode (b : Nat) : Option Socks5Error :=
  if b = 0x00 then none
  else if b = 0x01 then some .GeneralSocksServerFailure
  else if b = 0x02 then some .ConnectionNotAllowed
  else if b = 0x03 then some .NetworkUnreachable
  else if b = 0x04 then some .HostUnreachable
  else if b = 0x05 then some .ConnectionRefused
  else if b = 0x06 then some .TtlExpired
  else if b = 0x07 then some .CommandNotSupported
  else if b = 0x08 then some .AddressTypeNotSupported
  else some .Unassigned

/-- Outcome of `Socks5Client::recv_reply` on a byte stream.  `ok addr n`
returns the decoded address having consumed `n` bytes; `err` is a returned
`Socks5Error` (a short `read_exact` is `IoErr`); `panicked` is an
out-of-range slice index. -/
inductive ReplyResult
  | ok (addr : TargetAddr) (consumed : Nat)
  | err (e : Socks5Error)
  | panicked
  deriving DecidableEq, Repr

/-- `Socks5Client::recv_reply` in src/socks/client.rs, reading from the byte
stream `s`.  The scratch array is 262 bytes, so for the ATYP `0x03` branch
the code computes `&mut buf[5..len+2]`: when `len < 3` the range has
`start > end` and slicing panics; otherwise the sub-slice has length
`len - 3` and, after `read_exact` fills it, `&buf[..len]` indexes past its
end and panics.  Every domain-address reply therefore panics. -/
def recv_reply (s : List Nat) : ReplyResult :=
  match s with
  | b0 :: b1 :: b2 :: b3 :: rest =>
    if b0 ≠ VERSION then .err (.InvalidResponseVersion VERSION b0)
    else
      match repCode b1 with
      | some e => .err e
      | none =>
        if b2 ≠ 0x00 then .err (.InvalidReservedByte 0x00 b2)
        else if b3 = 0x01 then
          match rest with
          | a :: b :: c :: d :: ph :: pl :: _ =>
            .ok (.Ip (.v4 a b c d (ph * 256 + pl))) 10
          | _ => .err .IoErr
        else if b3 = 0x03 then
          match rest with
          | [] => .err .IoErr
          | len :: rest2 =>
            if len < 3 then .panicked
            else if rest2.length < len - 3 then .err .IoErr
            else .panicked
        else if b3 = 0x04 then
          match rest.drop 16 with
          | ph :: pl :: _ => .ok (.Ip (.v6 (rest.take 16) (ph * 256 + pl))) 22
          | _ => .err .IoErr
        else .err .InvalidAddressType
  | _ => .err .IoErr

/-- State of the control stream to the proxy: bytes `written` so far and the
`input` still to be read. -/
structure ConnState where
  written : List Nat
  input : List Nat
  deriving DecidableEq, Repr

/-- Outcome of a client engine operation, carrying the control-stream state
at exit.  After a protocol error the session is terminal, so on `err` the
model reports the stream as at the point the operation last touched it. -/
inductive Outcome (α : Type)
  | ok (val : α) (st : ConnState)
  | err (e : Socks5Error) (st : ConnState)
  | panicked (st : ConnState)
  deriving DecidableEq, Repr

/-- `Socks5Client::connect` in src/socks/client.rs, for a method whose
`code()` is `code` and whose `create`/`handshake` are the no-ops of
`NoAuthentication`: write the greeting `[VERSION, 0x01, code]`, read the
2-byte reply, reject version ≠ 0x05 then selected method 0xff.  The
selected method is otherwise not compared with `code`. -/
def connect (code : Nat) (st : ConnState) : Outcome Unit :=
  let st1 : ConnState := { st with written := st.written ++ [VERSION, 0x01, code] }
  match st1.input with
  | b0 :: b1 :: rest =>
    if b0 ≠ VERSION then
      .err (.InvalidResponseVersion VERSION b0) { st1 with input := rest }
    else if b1 = 0xff then
      .err .NoAcceptableMethod { st1 with input := rest }
    else
      .ok () { st1 with input := rest }
  | _ => .err .IoErr st1

/-- `Socks5Client::recv_reply` lifted to the control stream: consume the
bytes the decoder read on success. -/
def recv_reply_st (st : ConnState) : Outcome TargetAddr :=
  match recv_reply st.input with
  | .ok a n => .ok a { st with input := st.input.drop n }
  | .err e => .err e st
  | .panicked => .panicked st

/-- `Socks5Client::send_request`: encode the request (an encoding error
returns before any write, leaving the stream untouched), write it, then
decode one reply. -/
def send_request (cmd : RequestType) (t : TargetAddr) (st : ConnState) :
    Outcome TargetAddr :=
  match requestBytes cmd.code t with
  | .error e => .err e st
  | .ok data => recv_reply_st { st with written := st.written ++ data }

/-- `Socks5Stream` in src/socks/stream.rs: the claims depend only on its
recorded `peer_addr`. -/
structure Socks5Stream where
  peer_addr : TargetAddr
  deriving DecidableEq, Repr

/-- `Socks5Listener` in src/socks/listener.rs: holds the `bind_addr` the
first BIND reply published. -/
structure Socks5Listener where
  bind_addr : TargetAddr
  deriving DecidableEq, Repr

/-- `Socks5Stream::connect_with_socket`: connect, send a CONNECT request,
discard the reply address (`let _ =`), record `peer_addr = target_addr`. -/
def connect_with_socket (code : Nat) (target : TargetAddr) (st : ConnState) :
    Outcome Socks5Stream :=
  match connect code st with
  | .ok _ st1 =>
    match send_request .Connect target st1 with
    | .ok _ st2 => .ok { peer_addr := target } st2
    | .err e s => .err e s
    | .panicked s => .panicked s
  | .err e s => .err e s
  | .panicked s => .panicked s

/-- `Socks5Listener::bind_with_socket`: connect, send a BIND request, store
the decoded reply address as `bind_addr`. -/
def bind_with_socket (code : Nat) (target : TargetAddr) (st : ConnState) :
    Outcome Socks5Listener :=
  match connect code st with
  | .ok _ st1 =>
    match send_request .Bind target st1 with
    | .ok a st2 => .ok { bind_addr := a } st2
    | .err e s => .err e s
    | .panicked s => .panicked s
  | .err e s => .err e s
  | .panicked s => .panicked s

/-- `Socks5Listener::accept`: read the second reply on the held session and
build a stream whose `peer_addr` is the decoded remote address.  (`accept`
takes the listener by value; its `bind_addr` plays no further part.) -/
def accept (_l : Socks5Listener) (st : ConnState) : Outcome Socks5Stream :=
  match recv_reply_st st with
  | .ok a st1 => .ok { peer_addr := a } st1
  | .err e s => .err e s
  | .panicked s => .panicked s

/-- Result of a polled datagram operation: `pending` is `Poll::Pending`,
`panicked` a Rust panic. -/
inductive ProtoResult (α : Type)
  | ok (val : α)
  | err (e : Socks5Error)
  | pending
  | panicked
  deriving DecidableEq, Repr

/-- Functorial action on the `ok` value. -/
def ProtoResult.map (f : α → β) : ProtoResult α → ProtoResult β
  | .ok a => .ok (f a)
  | .err e => .err e
  | .pending => .pending
  | .panicked => .panicked

/-- Trace model of `tokio::net::UdpSocket`: datagrams sent so far (bytes and
destination endpoint) and the queue of inbound datagrams (bytes and sender
endpoint) the network has delivered. -/
structure UdpSocketM where
  sent : List (List Nat × SockAddr)
  inbox : List (List Nat × SockAddr)
  deriving DecidableEq, Repr

/-- `UdpSocket::poll_send_to` proper: emit the datagram to the numeric
endpoint, report the byte count. -/
def UdpSocketM.sendToRaw (u : UdpSocketM) (buf : List Nat) (target : SockAddr) :
    UdpSocketM × Nat :=
  ({ u with sent := u.sent ++ [(buf, target)] }, buf.length)

/-- `impl AsyncDatagram for UdpSocket` in src/socks/datagram.rs,
`poll_send_to`: convert the `TargetAddr` with `SocketAddr::try_from`
(`Ip` passes through; `Domain` goes through the host resolver, modelled by
the parameter `resolve` returning the first result or none) and send. -/
def udpPollSendTo (resolve : List Nat → Nat → Option SockAddr)
    (u : UdpSocketM) (buf : List Nat) (target : TargetAddr) :
    ProtoResult (UdpSocketM × Nat) :=
  match target with
  | .Ip a => .ok (u.sendToRaw buf a)
  | .Domain name port =>
    match resolve name port with
    | some a => .ok (u.sendToRaw buf a)
    | none => .err .InvalidTargetAddress

/-- `impl AsyncDatagram for UdpSocket`, `poll_recv_from`: pop the next
inbound datagram, copy it into the caller's buffer (of capacity `cap`, so
at most `cap` bytes) and return the sender wrapped as `TargetAddr::Ip`.
No SOCKS5 header handling happens here. -/
def udpPollRecvFrom (cap : Nat) (u : UdpSocketM) :
    ProtoResult ((List Nat × TargetAddr) × UdpSocketM) :=
  match u.inbox with
  | [] => .pending
  | (data, sender) :: rest =>
    .ok ((data.take cap, .Ip sender), { u with inbox := rest })

/-- `NoAuthentication` in src/socks/method.rs: the wrapped proxy stream is
tracked separately as `ConnState`; here are the two UDP fields, both `None`
after `create`. -/
structure NoAuthentication where
  datagram_socket : Option UdpSocketM
  dst : Option SockAddr
  deriving DecidableEq, Repr

/-- `NoAuthentication::create`: both UDP fields start unset. -/
def NoAuthentication.create : NoAuthentication :=
  { datagram_socket := none, dst := none }

/-- `NoAuthentication::register_endpoints`: install the datagram socket and
relay endpoint; always succeeds. -/
def NoAuthentication.register_endpoints (_na : NoAuthentication)
    (src : UdpSocketM) (dst : SockAddr) : ProtoResult NoAuthentication :=
  .ok { datagram_socket := some src, dst := some dst }

/-- `impl AsyncDatagram for NoAuthentication`, `poll_send_to`: error if no
socket is registered, otherwise delegate to it with the same `buf` and
`target`.  The stored relay endpoint `dst` is not consulted. -/
def NoAuthentication.poll_send_to (resolve : List Nat → Nat → Option SockAddr)
    (na : NoAuthentication) (buf : List Nat) (target : TargetAddr) :
    ProtoResult (NoAuthentication × Nat) :=
  match na.datagram_socket with
  | none => .err .DatagramSocketNotRegistered
  | some d =>
    (udpPollSendTo resolve d buf target).map
      (fun p => ({ na with datagram_socket := some p.1 }, p.2))

/-- `impl AsyncDatagram for NoAuthentication`, `poll_recv_from`: error if no
socket is registered, otherwise delegate. -/
def NoAuthentication.poll_recv_from (cap : Nat) (na : NoAuthentication) :
    ProtoResult ((List Nat × TargetAddr) × NoAuthentication) :=
  match na.datagram_socket with
  | none => .err .DatagramSocketNotRegistered
  | some d =>
    (udpPollRecvFrom cap d).map
      (fun p => (p.1, { na with datagram_socket := some p.2 }))

/-- `impl AsyncDatagram for Socks5Client`, `poll_send_to` in
src/socks/client.rs: wrap `buf` with `pack_datagram(target, buf)` (a
`DomainTooLong` there returns before any send) and pass the wrapped bytes,
still addressed to `target`, to the method. -/
def Socks5Client.poll_send_to (resolve : List Nat → Nat → Option SockAddr)
    (na : NoAuthentication) (buf : List Nat) (target : TargetAddr) :
    ProtoResult (NoAuthentication × Nat) :=
  match pack_datagram target buf with
  | .error e => .err e
  | .ok packed => na.poll_send_to resolve packed target

/-- `impl AsyncDatagram for Socks5Client`, `poll_recv_from`: a plain
delegation to the method; nothing strips the SOCKS5 UDP header. -/
def Socks5Client.poll_recv_from (cap : Nat) (na : NoAuthentication) :
    ProtoResult ((List Nat × TargetAddr) × NoAuthentication) :=
  na.poll_recv_from cap

/-! Shared concrete values used by witnesses and counterexamples. -/

/-- A resolver with no results; the claims below only exercise `Ip` targets,
for which the resolver is never consulted. -/
def resolve0 : List Nat → Nat → Option SockAddr := fun _ _ => none

/-- The relay endpoint 203.0.113.5:9000 of the spec's UDP ASSOCIATE scenario. -/
def relayAddr : SockAddr := .v4 203 0 113 5 9000

/-- The UDP target 1.2.3.4:7878 of the spec's UDP ASSOCIATE scenario. -/
def targetAddr1234 : TargetAddr := .Ip (.v4 1 2 3 4 7878)

/-- The byte string of the domain name `example.com`. -/
def exampleComBytes : List Nat :=
  [101, 120, 97, 109, 112, 108, 101, 46, 99, 111, 109]

/-- C4: `connect` writes exactly the greeting `[0x05, 0x01, code]`; on the
2-byte reply it fails with InvalidResponseVersion when the version byte is
not 0x05, fails with NoAcceptableMethod when the selected method is 0xff,
and succeeds for every other selected method byte — `b1` is unrelated to
`code`, so no check that the server echoed the offered method. -/
theorem connect_greeting (code : Nat) (st : ConnState) (b0 b1 : Nat)
    (rest : List Nat) (hin : st.input = b0 :: b1 :: rest) :
    (b0 ≠ 5 → connect code st =
        .err (.InvalidResponseVersion 5 b0) ⟨st.written ++ [5, 1, code], rest⟩) ∧
    (b0 = 5 → b1 = 255 → connect code st =
        .err .NoAcceptableMethod ⟨st.written ++ [5, 1, code], rest⟩) ∧
    (b0 = 5 → b1 ≠ 255 → connect code st =
        .ok () ⟨st.written ++ [5, 1, code], rest⟩) := by
  refine ⟨fun h => ?_, fun h5 hff => ?_, fun h5 hff => ?_⟩ <;>
    subst_vars <;>
    simp [connect, VERSION, hin, *]

/-- Closed instance of `connect_greeting`: offered method 0, server selects
method 2, and `connect` succeeds after writing `[5, 1, 0]`. -/
theorem connect_greeting_witness :
    connect 0 ⟨[], [5, 2, 99]⟩ = .ok () ⟨[5, 1, 0], [99]⟩ :=
  (connect_greeting 0 ⟨[], [5, 2, 99]⟩ 5 2 [99] rfl).2.2 rfl (by decide)

/-- C5: `recv_reply` rejects version ≠ 0x05 with InvalidResponseVersion,
maps reply codes 0x01..0x08 to the eight typed errors and any larger code
to Unassigned, continues on 0x00, rejects a nonzero reserved byte with
InvalidReservedByte, and rejects an address type outside {0x01, 0x03, 0x04}
with InvalidAddressType. -/
theorem recv_reply_errors (b0 b1 b2 b3 : Nat) (rest : List Nat) :
    (b0 ≠ 5 → recv_reply (b0 :: b1 :: b2 :: b3 :: rest) =
        .err (.InvalidResponseVersion 5 b0)) ∧
    (recv_reply (5 :: 1 :: b2 :: b3 :: rest) = .err .GeneralSocksServerFailure) ∧
    (recv_reply (5 :: 2 :: b2 :: b3 :: rest) = .err .ConnectionNotAllowed) ∧
    (recv_reply (5 :: 3 :: b2 :: b3 :: rest) = .err .NetworkUnreachable) ∧
    (recv_reply (5 :: 4 :: b2 :: b3 :: rest) = .err .HostUnreachable) ∧
    (recv_reply (5 :: 5 :: b2 :: b3 :: rest) = .err .ConnectionRefused) ∧
    (recv_reply (5 :: 6 :: b2 :: b3 :: rest) = .err .TtlExpired) ∧
    (recv_reply (5 :: 7 :: b2 :: b3 :: rest) = .err .CommandNotSupported) ∧
    (recv_reply (5 :: 8 :: b2 :: b3 :: rest) = .err .AddressTypeNotSupported) ∧
    (8 < b1 → recv_reply (5 :: b1 :: b2 :: b3 :: rest) = .err .Unassigned) ∧
    (b2 ≠ 0 → recv_reply (5 :: 0 :: b2 :: b3 :: rest) =
        .err (.InvalidReservedByte 0 b2)) ∧
    (b3 ≠ 1 → b3 ≠ 3 → b3 ≠ 4 → recv_reply (5 :: 0 :: 0 :: b3 :: rest) =
        .err .InvalidAddressType) := by
  refine ⟨fun h => ?_, ?_, ?_, ?_, ?_, ?_, ?_, ?_, ?_, fun h => ?_, fun h => ?_,
      fun hA hB hC => ?_⟩
  · simp [recv_reply, VERSION, h]
  all_goals try simp [recv_reply, repCode, VERSION]
  · have h0 : b1 ≠ 0 := by omega
    have h1 : b1 ≠ 1 := by omega
    have h2 : b1 ≠ 2 := by omega
    have h3 : b1 ≠ 3 := by omega
    have h4 : b1 ≠ 4 := by omega
    have h5 : b1 ≠ 5 := by omega
    have h6 : b1 ≠ 6 := by omega
    have h7 : b1 ≠ 7 := by omega
    have h8 : b1 ≠ 8 := by omega
    simp [recv_reply, repCode, VERSION, h0, h1, h2, h3, h4, h5, h6, h7, h8]
  · simp [recv_reply, repCode, VERSION, h]
  · simp [recv_reply, repCode, VERSION, hA, hB, hC]

/-- Closed instance of `recv_reply_errors`: a wrong version byte, an
unassigned reply code, a nonzero reserved byte, and an unknown address
type, each on a concrete frame. -/
theorem recv_reply_errors_witness :
    recv_reply [4, 0, 0, 1] = .err (.InvalidResponseVersion 5 4) ∧
    recv_reply [5, 9, 0, 1] = .err .Unassigned ∧
    recv_reply [5, 0, 7, 1] = .err (.InvalidReservedByte 0 7) ∧
    recv_reply [5, 0, 0, 2] = .err .InvalidAddressType :=
  ⟨(recv_reply_errors 4 0 0 1 []).1 (by decide),
   (recv_reply_errors 5 9 0 1 []).2.2.2.2.2.2.2.2.2.1 (by decide),
   (recv_reply_errors 5 0 7 1 []).2.2.2.2.2.2.2.2.2.2.1 (by decide),
   (recv_reply_errors 5 0 0 2 []).2.2.2.2.2.2.2.2.2.2.2 (by decide) (by decide)
     (by decide)⟩

/-- C6: the encoded request is `[0x05, cmd, 0x00, atyp, addr…, port_hi,
port_lo]` with atyp 0x01 and 4 octets for IPv4, atyp 0x04 and the 16 octets
for IPv6, atyp 0x03 and a length byte followed by the name bytes for a
domain, the port big-endian; and the concrete body for ("example.com", 80)
is `03 0b 65 78 61 6d 70 6c 65 2e 63 6f 6d 00 50`. -/
theorem request_encoding :
    (∀ cmd a b c d p, p < 65536 →
        requestBytes cmd (.Ip (.v4 a b c d p)) =
          .ok [5, cmd, 0, 1, a, b, c, d, p / 256, p % 256]) ∧
    (∀ cmd (o : List Nat) p, o.length = 16 → p < 65536 →
        requestBytes cmd (.Ip (.v6 o p)) =
          .ok ([5, cmd, 0, 4] ++ o ++ [p / 256, p % 256])) ∧
    (∀ cmd (name : List Nat) p, name.length ≤ 255 → p < 65536 →
        requestBytes cmd (.Domain name p) =
          .ok ([5, cmd, 0, 3, name.length] ++ name ++ [p / 256, p % 256])) ∧
    requestBytes 1 (.Domain exampleComBytes 80) =
      .ok ([5, 1, 0] ++
        [3, 11, 101, 120, 97, 109, 112, 108, 101, 46, 99, 111, 109, 0, 80]) := by
  refine ⟨fun cmd a b c d p hp => ?_, fun cmd o p _ hp => ?_,
      fun cmd name p hn hp => ?_, rfl⟩ <;>
    have h1 : p / 256 % 256 = p / 256 := Nat.mod_eq_of_lt (by omega)
  · simp [requestBytes, encodeAddr, portHi, portLo, h1, Except.map, VERSION]
  · simp [requestBytes, encodeAddr, portHi, portLo, h1, Except.map, VERSION]
  · simp [requestBytes, encodeAddr, portHi, portLo, hn, h1, Except.map, VERSION]

/-- Closed instance of `request_encoding`: the CONNECT request for
127.0.0.1:2000 is `05 01 00 01 7f 00 00 01 07 d0`. -/
theorem request_encoding_witness :
    requestBytes 1 (.Ip (.v4 127 0 0 1 2000)) =
      .ok [5, 1, 0, 1, 127, 0, 0, 1, 7, 208] := by
  have h := request_encoding.1 1 127 0 0 1 2000 (by decide)
  exact h

/-- C7: a Domain target longer than 255 bytes makes `send_request` fail with
DomainTooLong before touching the stream: the returned state is the input
state, so no bytes were written. -/
theorem send_request_domain_too_long (cmd : RequestType) (name : List Nat)
    (p : Nat) (st : ConnState) (h : 255 < name.length) :
    send_request cmd (.Domain name p) st = .err .DomainTooLong st := by
  have h' : ¬ name.length ≤ 255 := by omega
  simp [send_request, requestBytes, encodeAddr, h', Except.map]

/-- Closed instance of `send_request_domain_too_long`: a 256-byte domain
fails with DomainTooLong and leaves the stream state unchanged. -/
theorem send_request_domain_too_long_witness :
    send_request .Connect (.Domain (List.replicate 256 97) 80) ⟨[1], [2]⟩ =
      .err .DomainTooLong ⟨[1], [2]⟩ :=
  send_request_domain_too_long .Connect (List.replicate 256 97) 80 ⟨[1], [2]⟩
    (by rw [List.length_replicate]; omega)

/-- C8: with no datagram socket registered, `NoAuthentication` answers both
poll operations with DatagramSocketNotRegistered (and `create` starts in
that state); `register_endpoints` always succeeds and installs the socket
and relay endpoint; once a socket is registered, both operations delegate
to it. -/
theorem no_auth_udp_registration (resolve : List Nat → Nat → Option SockAddr)
    (cap : Nat) (na : NoAuthentication) (u u' : UdpSocketM) (d : SockAddr)
    (buf : List Nat) (t : TargetAddr) :
    (na.datagram_socket = none →
        na.poll_send_to resolve buf t = .err .DatagramSocketNotRegistered ∧
        na.poll_recv_from cap = .err .DatagramSocketNotRegistered) ∧
    NoAuthentication.create.datagram_socket = none ∧
    na.register_endpoints u d = .ok { datagram_socket := some u, dst := some d } ∧
    (na.datagram_socket = some u' →
        na.poll_send_to resolve buf t =
          (udpPollSendTo resolve u' buf t).map
            (fun p => ({ na with datagram_socket := some p.1 }, p.2)) ∧
        na.poll_recv_from cap =
          (udpPollRecvFrom cap u').map
            (fun p => (p.1, { na with datagram_socket := some p.2 }))) := by
  refine ⟨fun h => ⟨?_, ?_⟩, rfl, rfl, fun h => ⟨?_, ?_⟩⟩ <;>
    simp [NoAuthentication.poll_send_to, NoAuthentication.poll_recv_from, h]

/-- Closed instance of `no_auth_udp_registration`: the freshly created
method rejects a send and a receive, registration installs the endpoints,
and afterwards a send is the registered socket's send. -/
theorem no_auth_udp_registration_witness :
    NoAuthentication.create.poll_send_to resolve0 [9] targetAddr1234 =
        .err .DatagramSocketNotRegistered ∧
    NoAuthentication.create.poll_recv_from 4 =
        .err .DatagramSocketNotRegistered ∧
    NoAuthentication.create.register_endpoints ⟨[], []⟩ relayAddr =
        .ok { datagram_socket := some ⟨[], []⟩, dst := some relayAddr } ∧
    ({ datagram_socket := some ⟨[], []⟩, dst := some relayAddr } :
        NoAuthentication).poll_send_to resolve0 [9] targetAddr1234 =
      (udpPollSendTo resolve0 ⟨[], []⟩ [9] targetAddr1234).map
        (fun p => ({ datagram_socket := some p.1, dst := some relayAddr }, p.2)) := by
  have h := no_auth_udp_registration resolve0 4 .create ⟨[], []⟩ ⟨[], []⟩
    relayAddr [9] targetAddr1234
  have h2 := no_auth_udp_registration resolve0 4
    { datagram_socket := some ⟨[], []⟩, dst := some relayAddr } ⟨[], []⟩ ⟨[], []⟩
    relayAddr [9] targetAddr1234
  exact ⟨(h.1 rfl).1, (h.1 rfl).2, h.2.2.1, (h2.2.2.2 rfl).1⟩

/-- C9: a successful `connect_with_socket` records `peer_addr` equal to the
caller-supplied target, whatever the reply's bound address was; a
successful `bind_with_socket` stores as `bind_addr` the address decoded
from the first reply that followed the greeting; `accept` decodes one more
reply and the returned stream's `peer_addr` is that decoded address. -/
theorem front_end_addresses :
    (∀ code target st s st',
        connect_with_socket code target st = .ok s st' → s.peer_addr = target) ∧
    (∀ code target st l st',
        bind_with_socket code target st = .ok l st' →
          ∃ st1 n, connect code st = .ok () st1 ∧
            recv_reply st1.input = .ok l.bind_addr n) ∧
    (∀ l st s st', accept l st = .ok s st' →
        ∃ n, recv_reply st.input = .ok s.peer_addr n) := by
  refine ⟨?_, ?_, ?_⟩
  · intro code target st s st' h
    unfold connect_with_socket at h
    cases hc : connect code st with
    | ok v st1 =>
      rw [hc] at h
      simp only at h
      cases v
      cases hs : send_request .Connect target st1 with
      | ok a st2 =>
        rw [hs] at h
        simp only at h
        injection h with h1 _
        rw [← h1]
      | err e s2 => rw [hs] at h; simp only at h; cases h
      | panicked s2 => rw [hs] at h; simp only at h; cases h
    | err e s2 => rw [hc] at h; simp only at h; cases h
    | panicked s2 => rw [hc] at h; simp only at h; cases h
  · intro code target st l st' h
    unfold bind_with_socket at h
    cases hc : connect code st with
    | ok v st1 =>
      rw [hc] at h
      simp only at h
      cases v
      cases hs : send_request .Bind target st1 with
      | ok a st2 =>
        rw [hs] at h
        simp only at h
        injection h with h1 _
        unfold send_request at hs
        cases he : requestBytes RequestType.Bind.code target with
        | ok data =>
          rw [he] at hs
          simp only at hs
          unfold recv_reply_st at hs
          cases hr : recv_reply st1.input with
          | ok a' n =>
            rw [hr] at hs
            simp only at hs
            injection hs with h2 _
            exact ⟨st1, n, rfl, by rw [← h1, ← h2]; exact hr⟩
          | err e => rw [hr] at hs; simp only at hs; all_goals cases hs
          | panicked => rw [hr] at hs; simp only at hs; all_goals cases hs
        | error e => rw [he] at hs; simp only at hs; all_goals cases hs
      | err e s2 => rw [hs] at h; simp only at h; cases h
      | panicked s2 => rw [hs] at h; simp only at h; cases h
    | err e s2 => rw [hc] at h; simp only at h; cases h
    | panicked s2 => rw [hc] at h; simp only at h; cases h
  · intro l st s st' h
    unfold accept at h
    cases ha : recv_reply_st st with
    | ok a st1 =>
      rw [ha] at h
      simp only at h
      injection h with h1 _
      unfold recv_reply_st at ha
      cases hr : recv_reply st.input with
      | ok a' n =>
        rw [hr] at ha
        simp only at ha
        injection ha with h2 _
        exact ⟨n, by rw [← h1, ← h2]⟩
      | err e => rw [hr] at ha; simp only at ha; all_goals cases ha
      | panicked => rw [hr] at ha; simp only at ha; all_goals cases ha
    | err e s2 => rw [ha] at h; simp only at h; cases h
    | panicked s2 => rw [ha] at h; simp only at h; cases h

/-- Closed instance of `front_end_addresses`, on the spec's CONNECT and
BIND scenarios: CONNECT to 127.0.0.1:2000 yields that `peer_addr`; BIND's
first reply 10.0.0.1:8888 becomes `bind_addr`; the second reply
10.0.0.2:12345 becomes the accepted stream's `peer_addr`. -/
theorem front_end_addresses_witness :
    ({ peer_addr := .Ip (.v4 127 0 0 1 2000) } : Socks5Stream).peer_addr =
        TargetAddr.Ip (.v4 127 0 0 1 2000) ∧
    (∃ st1 n, connect 0 ⟨[], [5, 0, 5, 0, 0, 1, 10, 0, 0, 1, 34, 184]⟩ =
        .ok () st1 ∧
      recv_reply st1.input =
        .ok ({ bind_addr := .Ip (.v4 10 0 0 1 8888) } : Socks5Listener).bind_addr n) ∧
    (∃ n, recv_reply [5, 0, 0, 1, 10, 0, 0, 2, 48, 57] =
        .ok ({ peer_addr := .Ip (.v4 10 0 0 2 12345) } : Socks5Stream).peer_addr n) := by
  refine ⟨?_, ?_, ?_⟩
  · exact front_end_addresses.1 0 (.Ip (.v4 127 0 0 1 2000))
      ⟨[], [5, 0, 5, 0, 0, 1, 127, 0, 0, 1, 7, 208]⟩
      { peer_addr := .Ip (.v4 127 0 0 1 2000) }
      ⟨[5, 1, 0, 5, 1, 0, 1, 127, 0, 0, 1, 7, 208], []⟩ rfl
  · exact front_end_addresses.2.1 0 (.Ip (.v4 127 0 0 1 2000))
      ⟨[], [5, 0, 5, 0, 0, 1, 10, 0, 0, 1, 34, 184]⟩
      { bind_addr := .Ip (.v4 10 0 0 1 8888) }
      ⟨[5, 1, 0, 5, 2, 0, 1, 127, 0, 0, 1, 7, 208], []⟩ rfl
  · exact front_end_addresses.2.2 { bind_addr := .Ip (.v4 10 0 0 1 8888) }
      ⟨[5], [5, 0, 0, 1, 10, 0, 0, 2, 48, 57]⟩
      { peer_addr := .Ip (.v4 10 0 0 2 12345) } ⟨[5], []⟩ rfl

/-- C1 evaluated at the spec's UDP scenario: with relay 203.0.113.5:9000
registered, `send_to(b"hello", 1.2.3.4:7878)` emits the correctly
encapsulated datagram `00 00 00 01 01 02 03 04 1e c6` ++ "hello" — but its
destination endpoint is 1.2.3.4:7878, the target itself, which differs from
the registered relay endpoint (the `dst` field is never consulted). -/
theorem udp_send_goes_to_target_not_relay :
    Socks5Client.poll_send_to resolve0
        { datagram_socket := some ⟨[], []⟩, dst := some relayAddr }
        [104, 101, 108, 108, 111] targetAddr1234 =
      .ok ({ datagram_socket := some
               ⟨[([0, 0, 0, 1, 1, 2, 3, 4, 30, 198, 104, 101, 108, 108, 111],
                  SockAddr.v4 1 2 3 4 7878)], []⟩,
             dst := some relayAddr }, 15) ∧
    SockAddr.v4 1 2 3 4 7878 ≠ relayAddr := by
  exact ⟨rfl, by decide⟩

/-- C2 evaluated at the spec's inbound-datagram scenario: an encapsulated
datagram `00 00 00 01 01 02 03 04 1e c6` ++ "world" delivered by the relay
comes back from `poll_recv_from` verbatim — header included — paired with
the sender endpoint (the relay), not the payload "world" and not the
enclosed target 1.2.3.4:7878. -/
theorem udp_recv_returns_raw_and_sender :
    Socks5Client.poll_recv_from 64
        { datagram_socket := some
            ⟨[], [([0, 0, 0, 1, 1, 2, 3, 4, 30, 198, 119, 111, 114, 108, 100],
                   relayAddr)]⟩,
          dst := some relayAddr } =
      .ok (([0, 0, 0, 1, 1, 2, 3, 4, 30, 198, 119, 111, 114, 108, 100],
            .Ip relayAddr),
           { datagram_socket := some ⟨[], []⟩, dst := some relayAddr }) ∧
    ([0, 0, 0, 1, 1, 2, 3, 4, 30, 198, 119, 111, 114, 108, 100] : List Nat) ≠
        [119, 111, 114, 108, 100] ∧
    TargetAddr.Ip relayAddr ≠ targetAddr1234 := by
  exact ⟨rfl, by decide, by decide⟩

/-- C3 evaluated at the domain target ("example.com", 80): encoding produces
the expected address block, but decoding the reply frame built from that
block hits the out-of-range slice `buf[5..len+2]` / `buf[..len]` of the
ATYP 0x03 branch and panics instead of returning the address, so the
encode-then-decode round trip fails for every Domain value. -/
theorem encode_decode_domain_panics :
    encodeAddr (.Domain exampleComBytes 80) =
      .ok [3, 11, 101, 120, 97, 109, 112, 108, 101, 46, 99, 111, 109, 0, 80] ∧
    recv_reply [5, 0, 0, 3, 11, 101, 120, 97, 109, 112, 108, 101, 46, 99,
        111, 109, 0, 80] = .panicked := by
  exact ⟨rfl, rfl⟩

/-- C10 evaluated at the 1-byte domain reply `05 00 00 03 01 61 00 50`: the
domain branch computes the slice `buf[5..len+2]` = `buf[5..3]`, whose start
exceeds its end, so decoding panics rather than returning a Domain value;
no run of the branch keeps every index in bounds. -/
theorem domain_reply_slice_out_of_range :
    recv_reply [5, 0, 0, 3, 1, 97, 0, 80] = .panicked := rfl

end Pangolin
